import Mathlib

/-!
Verification of the `Comm` / `AsyncComm` / `CommTask` inter-process
communication subsystem of the `byop` scheduler
(`src/byop/scheduling/comm_task.py`), as a shallow embedding.

Python objects exchanged over the pipe are modelled by the inductive type
`PyObj`; the two endpoints of a `multiprocessing.Pipe` are modelled by a
`Connection` record holding the queue of deliverable inbound messages, the
list of messages written so far, and the local/peer closed flags.
Exceptions are modelled by `PyError` and explicit result types.
-/

set_option autoImplicit false

namespace Byop

/-- A Python value as it travels over a `Comm` connection: the special
`Event` objects (`CommTask.REQUEST`, `CommTask.CLOSE`, compared by name),
`None`, opaque user payloads (numbers, strings), and tuples. -/
inductive PyObj where
  | none
  | nat (n : Nat)
  | str (s : String)
  | event (name : String)
  | tuple (xs : List PyObj)

/-- The `CommTask.REQUEST` event object, used as the wire tag of a request. -/
def REQUEST : PyObj := .event "commtask-request"

/-- The `CommTask.CLOSE` event object, used as the close sentinel. -/
def CLOSE : PyObj := .event "commtask-close"

/-- Modelled from the spec: Python `==` against an `Event` object.  The
`byop.events.Event` class is not under `src/`; per the spec's data model an
`Event` is an identifier compared by name, and comparing a non-`Event`
value with an `Event` is `False`. -/
def isEventNamed (x : PyObj) (nm : String) : Bool :=
  match x with
  | .event n => n == nm
  | _ => false

/-- The test `data == CommTask.CLOSE` from `CommTask._communicate`. -/
def isCloseSentinel (d : PyObj) : Bool := isEventNamed d "commtask-close"

/-- The test `isinstance(data, tuple) and len(data) == 2 and
data[0] == CommTask.REQUEST` from `CommTask._communicate`. -/
def isRequestTuple : PyObj → Bool
  | .tuple [a, _] => isEventNamed a "commtask-request"
  | _ => false

/-- The second component `real_data` of a request tuple (`_, real_data = data`). -/
def requestPayload : PyObj → PyObj
  | .tuple [_, b] => b
  | d => d

/-- Exceptions the modelled code can raise.  `BrokenPipeError` is a subclass
of `OSError` in Python. -/
inductive PyError where
  | osError (msg : String)
  | brokenPipeError
  | eofError
  | timeoutError
  deriving DecidableEq, Repr

/-- One endpoint of a duplex pipe, as seen by the process holding it:
`incoming` is the FIFO queue of messages already written by the peer and not
yet read here; `sent` is the ordered list of messages this endpoint has
successfully written; `closed` is the local closed flag and `peerClosed`
records that the peer endpoint has been closed. -/
structure Connection where
  closed : Bool
  peerClosed : Bool
  incoming : List PyObj
  sent : List PyObj

/-- A freshly created endpoint, as produced by `multiprocessing.Pipe`. -/
def openConn : Connection :=
  { closed := false, peerClosed := false, incoming := [], sent := [] }

/-- `multiprocessing.Connection.send`: raises `OSError("handle is closed")`
on a locally closed handle, raises `BrokenPipeError` when the peer endpoint
is gone, and otherwise appends the object to the stream of written
messages. -/
def Connection.sendRaw (c : Connection) (obj : PyObj) : Except PyError Connection :=
  if c.closed then .error (.osError "handle is closed")
  else if c.peerClosed then .error .brokenPipeError
  else .ok { c with sent := c.sent ++ [obj] }

/-- Whether a `PyError` is (a subclass of) Python's `OSError`. -/
def PyError.isOSError : PyError → Bool
  | .osError _ => true
  | .brokenPipeError => true
  | _ => false

/-- `Comm.create(duplex=True)`: wraps `multiprocessing.Pipe(duplex=True)`,
returning a causally paired set of two fresh open endpoints. -/
def Comm.create : Connection × Connection := (openConn, openConn)

/-- `Comm.send`: writes `obj` on the underlying connection, catching only
`BrokenPipeError` (logged as a warning and swallowed); any other exception,
in particular the `OSError` raised by a locally closed handle, propagates
to the caller. -/
def Comm.send (c : Connection) (obj : PyObj) : Except PyError Connection :=
  match c.sendRaw obj with
  | .ok c1 => .ok c1
  | .error .brokenPipeError => .ok c
  | .error e => .error e

/-- `Comm.close(wait_for_ack)`: when the connection is not already closed,
sends the `CLOSE` sentinel (`BrokenPipeError` passed over, any other
exception logged and swallowed), optionally performs one acknowledgement
`recv` (any exception logged and swallowed; an empty queue models the
failing read), and finally closes the underlying connection (`OSError`
passed over, any other exception logged and swallowed).  When the
connection is already closed the whole body is skipped.  No exception ever
escapes. -/
def Comm.close (c : Connection) (waitForAck : Bool) : Connection :=
  if c.closed then c
  else
    let c1 :=
      match c.sendRaw CLOSE with
      | .ok c2 => c2
      | .error _ => c
    let c3 :=
      if waitForAck then
        match c1.incoming with
        | [] => c1
        | _ :: rest => { c1 with incoming := rest }
      else c1
    { c3 with closed := true }

/-- The `block` argument of `Comm.request`: `False`, a float timeout, or
`True`. -/
inductive BlockArg where
  | no
  | timed
  | forever
  deriving DecidableEq, Repr

/-- Outcome of `Comm.request`: a returned value together with the resulting
endpoint state, a raised exception, or an unbounded block (`block=True`
with no message ever arriving). -/
inductive ReqResult where
  | val (v : PyObj) (c : Connection)
  | err (e : PyError)
  | blocked

/-- `Comm.request(msg, block, default)`.  With `block=False` it performs a
non-blocking `poll()` and either returns the first already-queued message
or `default`, sending nothing.  Otherwise it first sends the probe
`(CommTask.REQUEST, msg)` via `Comm.send`, then `poll(timeout)`s and
`recv()`s.  `arrivals` stands for the messages the peer writes during the
wait (for `block=False` the wait is instantaneous, so `arrivals` plays no
role).  Polling a locally closed handle raises `OSError`; a drained pipe
whose peer endpoint is closed polls readable and then raises `EOFError`
from `recv`. -/
def Comm.request (c : Connection) (msg : PyObj) (block : BlockArg)
    (arrivals : List PyObj) (default : PyObj) : ReqResult :=
  match block with
  | .no =>
    if c.closed then .err (.osError "handle is closed")
    else
      match c.incoming, c.peerClosed with
      | [], false => .val default c
      | [], true => .err .eofError
      | m :: rest, _ => .val m { c with incoming := rest }
  | .timed =>
    match Comm.send c (.tuple [REQUEST, msg]) with
    | .error e => .err e
    | .ok c1 =>
      match c1.incoming ++ arrivals, c1.peerClosed with
      | [], false => .val default c1
      | [], true => .err .eofError
      | m :: rest, _ => .val m { c1 with incoming := rest }
  | .forever =>
    match Comm.send c (.tuple [REQUEST, msg]) with
    | .error e => .err e
    | .ok c1 =>
      match c1.incoming ++ arrivals, c1.peerClosed with
      | [], false => .blocked
      | [], true => .err .eofError
      | m :: rest, _ => .val m { c1 with incoming := rest }

/-- Modelled from the spec: outcome of `await asyncio.wait_for
(AsyncConnection(conn).recv(), timeout)`.  The module `byop.asyncm`
(`AsyncConnection`) is not under `src/`; per the spec it suspends the
calling cooperative task until the next message arrives.  `msg m` means a
message arrived (within the timeout, when one is set); `timedOut` means a
finite timeout elapsed first, in which case `asyncio.wait_for` raises
`asyncio.TimeoutError`. -/
inductive RecvOutcome where
  | msg (m : PyObj)
  | timedOut

/-- The Python `result is None` identity test. -/
def isPyNone : PyObj → Bool
  | .none => true
  | _ => false

/-- `AsyncComm.request(timeout, default)`: awaits one message under
`asyncio.wait_for`.  When the timeout elapses first, the
`asyncio.TimeoutError` raised by `wait_for` propagates to the caller; when
a message arrives, `None` is replaced by `default` in the returned
value. -/
def AsyncComm.request (received : RecvOutcome) (default : PyObj) :
    Except PyError PyObj :=
  match received with
  | .timedOut => .error .timeoutError
  | .msg m => .ok (if isPyNone m then default else m)

/-- A `CommTask.Msg`: the task (by name), the scheduler-side comm, the
future (by id) and the payload, as built by
`CommTask.Msg(self, comm, future, data)`. -/
structure Msg where
  task : String
  comm : Connection
  future : Nat
  data : PyObj

/-- An event emitted by the relay loop: `REQUEST` and `MESSAGE` carry a
`Msg`; `CLOSE` carries no payload (`self.emit(CommTask.CLOSE)`). -/
inductive REvent where
  | requestEv (m : Msg)
  | messageEv (m : Msg)
  | closeEv

/-- Whether an `REvent` is the `CLOSE` event. -/
def REvent.isClose : REvent → Bool
  | .closeEv => true
  | _ => false

/-- One item observed by `await comm.as_async.request()` inside the relay
loop: a delivered message, or the `EOFError` raised when the peer transport
was torn down with the pipe drained. -/
inductive RecvItem where
  | msg (d : PyObj)
  | eof

/-- The FIFO stream of `RecvItem`s an endpoint observes when its peer has
written exactly the messages `sentList`, in order. -/
def deliveredStream (sentList : List PyObj) : List RecvItem :=
  sentList.map RecvItem.msg

/-- The body of one iteration of `CommTask._communicate` on a received
`data`: the event emitted and whether the loop continues (`False` exactly
for the `CLOSE` sentinel, which `break`s). -/
def communicateStep (t : String) (f : Nat) (c : Connection) (data : PyObj) :
    REvent × Bool :=
  if isRequestTuple data then
    (.requestEv ⟨t, c, f, requestPayload data⟩, true)
  else if isCloseSentinel data then
    (.closeEv, false)
  else
    (.messageEv ⟨t, c, f, data⟩, true)

/-- The `while True` loop of `CommTask._communicate` over a stream of
received items: each message is classified by `communicateStep`; the
`CLOSE` sentinel emits `CLOSE` and breaks, reading nothing further;
`EOFError` breaks without emitting.  Returns the emitted events in
order. -/
def communicateLoop (t : String) (f : Nat) (c : Connection) :
    List RecvItem → List REvent
  | [] => []
  | .eof :: _ => []
  | .msg d :: rest =>
    match communicateStep t f c d with
    | (e, false) => [e]
    | (e, true) => e :: communicateLoop t f c rest

/-- Teardown actions recorded by the model of `CommTask._communicate`'s
epilogue, in the order they are performed. -/
inductive CTAction where
  | schedCommClosed (waitForAck : Bool)
  | workerCommRemoved (future : Nat)
  | workerCommClosed (future : Nat)

/-- The bookkeeping state of a `CommTask`: the `worker_comms` map from
futures to worker-side endpoints (`dict` insertion order), and a trace of
the teardown actions performed, in order. -/
structure CommTaskState where
  workerComms : List (Nat × Connection)
  trace : List CTAction

/-- `dict` lookup in `worker_comms` (futures are unique keys). -/
def lookupComm (f : Nat) : List (Nat × Connection) → Option Connection
  | [] => Option.none
  | (g, c) :: rest => if g = f then some c else lookupComm f rest

/-- Removal of a key from `worker_comms`, as done by `dict.pop`. -/
def removeComm (f : Nat) : List (Nat × Connection) → List (Nat × Connection)
  | [] => []
  | (g, c) :: rest => if g = f then rest else (g, c) :: removeComm f rest

/-- `CommTask.__call__`: creates a fresh duplex pair
`scheduler_comm, worker_comm = Comm.create(duplex=True)`, passes the worker
endpoint to the wrapped function, and — when the underlying
`Task.__call__` produced a future rather than `None` — records the worker
endpoint in `worker_comms` under that future and starts the relay loop.
`superFuture` stands for the result of `super().__call__` (modelled from
the spec: `Task.submit` returns `None` exactly when the call limit is
reached, `byop/scheduling/task.py` is not under `src/`).  Returns the
future together with the scheduler-side endpoint the relay loop was
started on, and the new state. -/
def CommTask.call (st : CommTaskState) (superFuture : Option Nat) :
    Option (Nat × Connection) × CommTaskState :=
  let (schedulerComm, workerComm) := Comm.create
  match superFuture with
  | Option.none => (Option.none, st)
  | some f =>
    (some (f, schedulerComm),
     { st with workerComms := st.workerComms ++ [(f, workerComm)] })

/-- The receive/emit phase of `CommTask._communicate`, threaded through the
`CommTask` bookkeeping state: the loop only reads from its own comm and
emits events, never touching `worker_comms` or performing teardown
actions. -/
def communicateRun (st : CommTaskState) (t : String) (f : Nat)
    (c : Connection) : List RecvItem → CommTaskState × List REvent
  | [] => (st, [])
  | .eof :: _ => (st, [])
  | .msg d :: rest =>
    match communicateStep t f c d with
    | (e, false) => (st, [e])
    | (e, true) =>
      let (st1, es) := communicateRun st t f c rest
      (st1, e :: es)

/-- The epilogue of `CommTask._communicate`, run after the loop exits by
either path: `comm.close(wait_for_ack=False)` on the scheduler-side comm,
then `worker_comm = self.worker_comms.pop(future)` followed by
`worker_comm.close()` (whose `wait_for_ack` defaults to `False`).  Returns
the new state, the closed scheduler-side endpoint, and the closed
worker-side endpoint (`none` models the `KeyError` from `pop` when the
future is absent, which aborts the coroutine after the scheduler-side
close). -/
def communicateEpilogue (st : CommTaskState) (f : Nat)
    (schedulerComm : Connection) :
    CommTaskState × Connection × Option Connection :=
  let sc := Comm.close schedulerComm false
  match lookupComm f st.workerComms with
  | some wc =>
    ({ workerComms := removeComm f st.workerComms,
       trace := st.trace ++
         [.schedCommClosed false, .workerCommRemoved f, .workerCommClosed f] },
     sc, some (Comm.close wc false))
  | Option.none =>
    ({ st with trace := st.trace ++ [.schedCommClosed false] },
     sc, Option.none)

/-- All of `CommTask._communicate`: the relay loop over the received
stream, followed by the teardown epilogue. -/
def CommTask.communicate (st : CommTaskState) (t : String) (f : Nat)
    (schedulerComm : Connection) (stream : List RecvItem) :
    List REvent × CommTaskState × Connection × Option Connection :=
  let (st1, events) := communicateRun st t f schedulerComm stream
  let (st2, sc, wc) := communicateEpilogue st1 f schedulerComm
  (events, st2, sc, wc)

/-- Sequential `Comm.send` of a list of values on one endpoint, an
exception aborting the sequence. -/
def Comm.sendMany (c : Connection) : List PyObj → Except PyError Connection
  | [] => .ok c
  | x :: xs =>
    match Comm.send c x with
    | .ok c1 => Comm.sendMany c1 xs
    | .error e => .error e

/-- Number of `CLOSE` events in a list of emitted events. -/
def countClose : List REvent → Nat
  | [] => 0
  | e :: es => (if e.isClose then 1 else 0) + countClose es

/-! Helper lemmas shared by the claim theorems. -/

theorem close_sets_closed (c : Connection) (a : Bool) :
    (Comm.close c a).closed = true := by
  by_cases hc : c.closed <;> simp [Comm.close, hc]

theorem close_of_closed (c : Connection) (a : Bool) (h : c.closed = true) :
    Comm.close c a = c := by
  simp [Comm.close, h]

theorem send_open (c : Connection) (x : PyObj) (hc : c.closed = false)
    (hp : c.peerClosed = false) :
    Comm.send c x = .ok { c with sent := c.sent ++ [x] } := by
  simp [Comm.send, Connection.sendRaw, hc, hp]

theorem sendMany_open (xs : List PyObj) (c : Connection) (hc : c.closed = false)
    (hp : c.peerClosed = false) :
    Comm.sendMany c xs = .ok { c with sent := c.sent ++ xs } := by
  induction xs generalizing c with
  | nil => simp [Comm.sendMany]
  | cons x xs ih =>
    rw [Comm.sendMany, send_open c x hc hp]
    show Comm.sendMany { c with sent := c.sent ++ [x] } xs =
      Except.ok { c with sent := c.sent ++ x :: xs }
    rw [ih { c with sent := c.sent ++ [x] } hc hp]
    simp

theorem step_not_close (t : String) (f : Nat) (c : Connection) (d : PyObj)
    (h : isCloseSentinel d = false) :
    (communicateStep t f c d).2 = true ∧
    (communicateStep t f c d).1.isClose = false := by
  by_cases hr : isRequestTuple d = true <;>
    simp [communicateStep, hr, h, REvent.isClose]

theorem requestTuple_not_close (d : PyObj) (h : isCloseSentinel d = true) :
    isRequestTuple d = false := by
  cases d <;> simp_all [isCloseSentinel, isEventNamed, isRequestTuple]

theorem communicateRun_eq (st : CommTaskState) (t : String) (f : Nat)
    (c : Connection) (s : List RecvItem) :
    communicateRun st t f c s = (st, communicateLoop t f c s) := by
  induction s with
  | nil => rfl
  | cons i rest ih =>
    cases i with
    | eof => rfl
    | msg d =>
      rw [communicateRun, communicateLoop]
      rcases hs : communicateStep t f c d with ⟨e, b⟩
      cases b <;> simp [ih]

theorem lookupComm_append_self (f : Nat) (c : Connection)
    (xs : List (Nat × Connection)) (h : lookupComm f xs = Option.none) :
    lookupComm f (xs ++ [(f, c)]) = some c := by
  induction xs with
  | nil => simp [lookupComm]
  | cons p rest ih =>
    rw [lookupComm] at h
    rcases p with ⟨g, cg⟩
    by_cases hg : g = f
    · simp [hg] at h
    · simp only [List.cons_append, lookupComm, if_neg hg] at h ⊢
      exact ih h

theorem removeComm_append_self (f : Nat) (c : Connection)
    (xs : List (Nat × Connection)) (h : lookupComm f xs = Option.none) :
    removeComm f (xs ++ [(f, c)]) = xs := by
  induction xs with
  | nil => simp [removeComm]
  | cons p rest ih =>
    rw [lookupComm] at h
    rcases p with ⟨g, cg⟩
    by_cases hg : g = f
    · simp [hg] at h
    · simp only [List.cons_append, removeComm, if_neg hg] at h ⊢
      exact congrArg (fun l => (g, cg) :: l) (ih h)

/-! The claim theorems. -/

/-- C2: the claim says `AsyncComm.request(timeout=t, default=d)` returns
normally with `d` when no message arrives within `t` seconds and does not
raise.  On the code, `asyncio.wait_for` raises `asyncio.TimeoutError` when
the timeout elapses and the function propagates it; `default` is only
substituted for a received `None` value.  This theorem evaluates the model
at the failing input: a timed-out wait raises rather than returning the
default. -/
theorem asyncRequest_timeout_raises :
    AsyncComm.request RecvOutcome.timedOut (PyObj.str "d") =
      Except.error PyError.timeoutError := rfl

/-- C10: in `AsyncComm.request`, whatever the timeout argument was, a
received message that `is None` is replaced by `default` in the returned
value (`return default if result is None else result`), so a peer sending
the payload `None` yields exactly the default outcome `d`. -/
theorem asyncRequest_none_replaced_by_default (d : PyObj) (m : PyObj)
    (h : isPyNone m = true) :
    AsyncComm.request (RecvOutcome.msg m) d = Except.ok d := by
  simp [AsyncComm.request, h]

/-- Witness for C10's theorem at the concrete received message `None` and
default `"d"`. -/
theorem asyncRequest_none_replaced_by_default_witness :
    AsyncComm.request (RecvOutcome.msg PyObj.none) (PyObj.str "d") =
      Except.ok (PyObj.str "d") :=
  asyncRequest_none_replaced_by_default (PyObj.str "d") PyObj.none rfl

/-- C9: `Comm.send` catches only `BrokenPipeError` (logging a warning).
When the endpoint's own connection is already closed locally, the
underlying `connection.send` raises `OSError("handle is closed")`, which is
not caught and propagates to the caller; the silent best-effort path covers
only the peer-side closure, where the `BrokenPipeError` is swallowed and
the state is unchanged. -/
theorem send_swallows_only_broken_pipe (c : Connection) (obj : PyObj) :
    (c.closed = true →
      Comm.send c obj = Except.error (PyError.osError "handle is closed")) ∧
    (c.closed = false → c.peerClosed = true → Comm.send c obj = Except.ok c) := by
  constructor
  · intro h
    simp [Comm.send, Connection.sendRaw, h]
  · intro h hp
    simp [Comm.send, Connection.sendRaw, h, hp]

/-- Witness for C9's theorem: sending on a locally closed endpoint raises
the closed-handle `OSError`. -/
theorem send_swallows_only_broken_pipe_witness :
    Comm.send { openConn with closed := true } (PyObj.nat 1) =
      Except.error (PyError.osError "handle is closed") :=
  (send_swallows_only_broken_pipe { openConn with closed := true }
    (PyObj.nat 1)).1 rfl

/-- C6: `Comm.close` is unconditionally safe: it is a total function of the
endpoint state (every failure of the underlying send/recv/close is matched
and swallowed in its definition, so no exception escapes for any starting
state, including broken-pipe and already-closed transports), it always
leaves the connection closed, and a second `close` on the result is a
no-op: it returns the state unchanged, so in particular it sends no second
`CLOSE` sentinel. -/
theorem close_safe_and_idempotent (c : Connection) (a b : Bool) :
    (Comm.close c a).closed = true ∧
    Comm.close (Comm.close c a) b = Comm.close c a ∧
    (Comm.close (Comm.close c a) b).sent = (Comm.close c a).sent := by
  have h1 := close_sets_closed c a
  have h2 := close_of_closed (Comm.close c a) b h1
  exact ⟨h1, h2, by rw [h2]⟩

/-- C1: each message delivered to the relay loop produces an event
determined exactly by its shape: a 2-tuple tagged `REQUEST` is wrapped in a
`Msg` (task, scheduler-side comm, future, second tuple component as
payload) and emitted as `REQUEST`, the loop going on; the `CLOSE` sentinel
emits `CLOSE` and terminates the loop, reading no further messages
whatever follows; anything else is wrapped in a `Msg` and emitted as
`MESSAGE`. -/
theorem relay_event_determined_by_shape (t : String) (f : Nat)
    (c : Connection) (d : PyObj) (rest : List RecvItem) :
    (isRequestTuple d = true →
      communicateLoop t f c (RecvItem.msg d :: rest) =
        REvent.requestEv ⟨t, c, f, requestPayload d⟩ ::
          communicateLoop t f c rest) ∧
    (isCloseSentinel d = true →
      communicateLoop t f c (RecvItem.msg d :: rest) = [REvent.closeEv]) ∧
    (isRequestTuple d = false → isCloseSentinel d = false →
      communicateLoop t f c (RecvItem.msg d :: rest) =
        REvent.messageEv ⟨t, c, f, d⟩ :: communicateLoop t f c rest) := by
  refine ⟨fun h => ?_, fun h => ?_, fun h1 h2 => ?_⟩
  · simp [communicateLoop, communicateStep, h]
  · simp [communicateLoop, communicateStep, requestTuple_not_close d h, h]
  · simp [communicateLoop, communicateStep, h1, h2]

/-- Witness for C1's theorem: a `(REQUEST, 7)` tuple followed by the
`CLOSE` sentinel produces exactly a `REQUEST` event carrying payload `7`
and then `CLOSE`, the sentinel ending the loop. -/
theorem relay_event_determined_by_shape_witness :
    communicateLoop "w" 0 openConn
        [RecvItem.msg (PyObj.tuple [REQUEST, PyObj.nat 7]), RecvItem.msg CLOSE] =
      [REvent.requestEv ⟨"w", openConn, 0, PyObj.nat 7⟩, REvent.closeEv] := by
  have h1 := (relay_event_determined_by_shape "w" 0 openConn
      (PyObj.tuple [REQUEST, PyObj.nat 7]) [RecvItem.msg CLOSE]).1 (by decide)
  have h2 := (relay_event_determined_by_shape "w" 0 openConn CLOSE []).2.1
      (by decide)
  rw [h1, h2]
  rfl

/-- C3: `Comm.request(msg, block=False, default=d)` on a live endpoint
performs only a non-blocking poll: it never blocks, writes nothing on the
connection (no `(REQUEST, msg)` probe is sent), and returns the first
already-queued message when one is queued and `d` otherwise. -/
theorem request_nonblocking_polls_only (c : Connection) (msg d : PyObj)
    (arr : List PyObj) (hc : c.closed = false) (hp : c.peerClosed = false) :
    Comm.request c msg BlockArg.no arr d =
      (match c.incoming with
       | [] => ReqResult.val d c
       | m :: rest => ReqResult.val m { c with incoming := rest }) ∧
    (∀ v c1, Comm.request c msg BlockArg.no arr d = ReqResult.val v c1 →
      c1.sent = c.sent) ∧
    Comm.request c msg BlockArg.no arr d ≠ ReqResult.blocked := by
  have heq : Comm.request c msg BlockArg.no arr d =
      (match c.incoming with
       | [] => ReqResult.val d c
       | m :: rest => ReqResult.val m { c with incoming := rest }) := by
    cases hi : c.incoming <;> simp [Comm.request, hc, hp, hi]
  refine ⟨heq, fun v c1 h => ?_, ?_⟩
  · rw [heq] at h
    cases hi : c.incoming <;> rw [hi] at h <;>
      cases h <;> rfl
  · rw [heq]
    cases c.incoming <;> simp

/-- Witness for C3's theorem at an endpoint with one queued message: the
queued message is returned, the queue is consumed, and nothing is sent. -/
theorem request_nonblocking_polls_only_witness :
    Comm.request { openConn with incoming := [PyObj.nat 3] } PyObj.none
        BlockArg.no [] (PyObj.str "d") =
      ReqResult.val (PyObj.nat 3)
        { openConn with incoming := ([] : List PyObj) } := by
  have h := (request_nonblocking_polls_only
      { openConn with incoming := [PyObj.nat 3] } PyObj.none (PyObj.str "d")
      [] rfl rfl).1
  simpa using h

/-- C4: `Comm.request(msg, block=t, default=d)` with a numeric `t` on a
live endpoint first writes the probe `(CommTask.REQUEST, msg)` on the
connection (every returned state has exactly that tuple appended to its
written messages), then waits: if a reply is available within the bounded
wait (the queued messages plus the `arrivals` of the wait window) the first
one is returned, and otherwise `d` is returned. -/
theorem request_timed_probe_then_wait (c : Connection) (msg d : PyObj)
    (arr : List PyObj) (hc : c.closed = false) (hp : c.peerClosed = false) :
    (∀ v c1, Comm.request c msg BlockArg.timed arr d = ReqResult.val v c1 →
      c1.sent = c.sent ++ [PyObj.tuple [REQUEST, msg]]) ∧
    (c.incoming ++ arr = [] →
      Comm.request c msg BlockArg.timed arr d =
        ReqResult.val d
          { c with sent := c.sent ++ [PyObj.tuple [REQUEST, msg]] }) ∧
    (∀ m rest, c.incoming ++ arr = m :: rest →
      Comm.request c msg BlockArg.timed arr d =
        ReqResult.val m
          { c with sent := c.sent ++ [PyObj.tuple [REQUEST, msg]],
                   incoming := rest }) := by
  have heq : Comm.request c msg BlockArg.timed arr d =
      (match c.incoming ++ arr with
       | [] => ReqResult.val d
           { c with sent := c.sent ++ [PyObj.tuple [REQUEST, msg]] }
       | m :: rest => ReqResult.val m
           { c with sent := c.sent ++ [PyObj.tuple [REQUEST, msg]],
                    incoming := rest }) := by
    rw [Comm.request, send_open c (PyObj.tuple [REQUEST, msg]) hc hp]
    cases hq : c.incoming ++ arr <;> simp [hp, hq]
  refine ⟨fun v c1 h => ?_, fun h0 => ?_, fun m rest h0 => ?_⟩
  · rw [heq] at h
    cases hq : c.incoming ++ arr <;> rw [hq] at h <;> cases h <;> rfl
  · rw [heq, h0]
  · rw [heq, h0]

/-- Witness for C4's theorem: on a fresh endpoint whose peer replies `9`
during the wait, the probe `(REQUEST, None)` is recorded as sent and the
reply `9` is returned. -/
theorem request_timed_probe_then_wait_witness :
    Comm.request openConn PyObj.none BlockArg.timed [PyObj.nat 9]
        (PyObj.str "d") =
      ReqResult.val (PyObj.nat 9)
        { openConn with
            sent := [PyObj.tuple [REQUEST, PyObj.none]],
            incoming := ([] : List PyObj) } := by
  have h := (request_timed_probe_then_wait openConn PyObj.none (PyObj.str "d")
      [PyObj.nat 9] rfl rfl).2.2 (PyObj.nat 9) [] rfl
  simpa using h

theorem step_close (t : String) (f : Nat) (c : Connection) :
    communicateStep t f c CLOSE = (REvent.closeEv, false) := by
  simp [communicateStep, isRequestTuple, isCloseSentinel, isEventNamed, CLOSE]

theorem relay_plain_messages (t : String) (f : Nat) (c : Connection)
    (xs : List PyObj)
    (h : ∀ x ∈ xs, isRequestTuple x = false ∧ isCloseSentinel x = false) :
    communicateLoop t f c (xs.map RecvItem.msg) =
      xs.map fun x => REvent.messageEv ⟨t, c, f, x⟩ := by
  induction xs with
  | nil => rfl
  | cons x xs ih =>
    obtain ⟨h1, h2⟩ := h x (List.mem_cons_self x xs)
    have ih1 := ih fun y hy => h y (List.mem_cons_of_mem x hy)
    simp [communicateLoop, communicateStep, h1, h2, ih1]

/-- C5 (counterexample to the claim as stated): the claim quantifies over
every value `x`, but a `Comm.send` of the `CLOSE` sentinel is delivered to
the relay and emitted as the `CLOSE` event, not re-emitted as a `MESSAGE`
event carrying that value. -/
theorem send_close_sentinel_not_message_event :
    Comm.sendMany openConn [CLOSE] =
      Except.ok { openConn with sent := [CLOSE] } ∧
    communicateLoop "w" 0 openConn (deliveredStream [CLOSE]) =
      [REvent.closeEv] ∧
    communicateLoop "w" 0 openConn (deliveredStream [CLOSE]) ≠
      [REvent.messageEv ⟨"w", openConn, 0, CLOSE⟩] := by
  have hloop : communicateLoop "w" 0 openConn (deliveredStream [CLOSE]) =
      [REvent.closeEv] := by
    simp [deliveredStream, communicateLoop, step_close]
  refine ⟨rfl, hloop, ?_⟩
  intro h
  have hcount := congrArg countClose h
  rw [hloop] at hcount
  simp [countClose, REvent.isClose] at hcount

/-- C5 as amended: for every sequence of values that are neither the
`CLOSE` sentinel nor a `REQUEST`-tagged 2-tuple, the sequence of
`Comm.send` calls on a fresh worker-side endpoint writes exactly those
values in order, they are delivered to the relay verbatim, and the relay
re-emits each one verbatim as a `MESSAGE` event, preserving the order of
the sends. -/
theorem send_roundtrip_messages_in_order (t : String) (f : Nat)
    (worker relayConn : Connection) (xs : List PyObj)
    (hc : worker.closed = false) (hp : worker.peerClosed = false)
    (hs : worker.sent = [])
    (hplain : ∀ x ∈ xs, isRequestTuple x = false ∧ isCloseSentinel x = false) :
    ∃ c1, Comm.sendMany worker xs = Except.ok c1 ∧ c1.sent = xs ∧
      communicateLoop t f relayConn (deliveredStream c1.sent) =
        xs.map fun x => REvent.messageEv ⟨t, relayConn, f, x⟩ := by
  refine ⟨{ worker with sent := worker.sent ++ xs },
    sendMany_open xs worker hc hp, by simp [hs], ?_⟩
  have hsent : ({ worker with sent := worker.sent ++ xs } : Connection).sent
      = xs := by simp [hs]
  rw [hsent, deliveredStream]
  exact relay_plain_messages t f relayConn xs hplain

/-- Witness for the amended C5 theorem: two plain payloads sent on a fresh
endpoint come back as exactly the two corresponding `MESSAGE` events, in
order. -/
theorem send_roundtrip_messages_in_order_witness :
    Comm.sendMany openConn [PyObj.nat 1, PyObj.nat 2] =
      Except.ok { openConn with sent := [PyObj.nat 1, PyObj.nat 2] } ∧
    communicateLoop "w" 1 openConn
        (deliveredStream [PyObj.nat 1, PyObj.nat 2]) =
      [REvent.messageEv ⟨"w", openConn, 1, PyObj.nat 1⟩,
       REvent.messageEv ⟨"w", openConn, 1, PyObj.nat 2⟩] := by
  obtain ⟨c1, h1, h2, h3⟩ := send_roundtrip_messages_in_order "w" 1 openConn
      openConn [PyObj.nat 1, PyObj.nat 2] rfl rfl rfl
      (by intro x hx; simp at hx; rcases hx with h | h <;> subst h <;>
        exact ⟨rfl, rfl⟩)
  rw [h2] at h3
  exact ⟨rfl, h3⟩

theorem relay_eof_aux (t : String) (f : Nat) (c : Connection)
    (msgs : List PyObj) (h : ∀ m ∈ msgs, isCloseSentinel m = false) :
    countClose (communicateLoop t f c
      (msgs.map RecvItem.msg ++ [RecvItem.eof])) = 0 := by
  induction msgs with
  | nil => rfl
  | cons m msgs ih =>
    have hm := step_not_close t f c m (h m (List.mem_cons_self m msgs))
    have ih1 := ih fun y hy => h y (List.mem_cons_of_mem m hy)
    rcases hs : communicateStep t f c m with ⟨e, b⟩
    rw [hs] at hm
    have hb : b = true := hm.1
    have he : e.isClose = false := hm.2
    subst hb
    simp [communicateLoop, hs, countClose, he, ih1]

theorem relay_clean_rest_aux (t : String) (f : Nat) (c : Connection)
    (msgs : List PyObj) (rest : List RecvItem)
    (h : ∀ m ∈ msgs, isCloseSentinel m = false) :
    communicateLoop t f c
        (msgs.map RecvItem.msg ++ (RecvItem.msg CLOSE :: rest)) =
      communicateLoop t f c (msgs.map RecvItem.msg ++ [RecvItem.msg CLOSE]) := by
  induction msgs with
  | nil => simp [communicateLoop, step_close]
  | cons m msgs ih =>
    have hm := step_not_close t f c m (h m (List.mem_cons_self m msgs))
    have ih1 := ih fun y hy => h y (List.mem_cons_of_mem m hy)
    rcases hs : communicateStep t f c m with ⟨e, b⟩
    rw [hs] at hm
    have hb : b = true := hm.1
    subst hb
    simp [communicateLoop, hs, ih1]

theorem relay_clean_one_close_aux (t : String) (f : Nat) (c : Connection)
    (msgs : List PyObj) (h : ∀ m ∈ msgs, isCloseSentinel m = false) :
    countClose (communicateLoop t f c
      (msgs.map RecvItem.msg ++ [RecvItem.msg CLOSE])) = 1 := by
  induction msgs with
  | nil => simp [communicateLoop, step_close, countClose, REvent.isClose]
  | cons m msgs ih =>
    have hm := step_not_close t f c m (h m (List.mem_cons_self m msgs))
    have ih1 := ih fun y hy => h y (List.mem_cons_of_mem m hy)
    rcases hs : communicateStep t f c m with ⟨e, b⟩
    rw [hs] at hm
    have hb : b = true := hm.1
    have he : e.isClose = false := hm.2
    subst hb
    simp [communicateLoop, hs, countClose, he, ih1]

/-- C7: when the relay's receive raises `EOFError` after a run of non-CLOSE
messages, the loop terminates having emitted no `CLOSE` event; in the
clean-close exit the loop terminates at the sentinel, reads nothing that
follows it, and emits exactly one `CLOSE` event — so the two exits are
observably distinct. -/
theorem eof_exit_vs_clean_close_exit (t : String) (f : Nat) (c : Connection)
    (msgs : List PyObj) (rest : List RecvItem)
    (h : ∀ m ∈ msgs, isCloseSentinel m = false) :
    countClose (communicateLoop t f c
      (msgs.map RecvItem.msg ++ [RecvItem.eof])) = 0 ∧
    communicateLoop t f c
        (msgs.map RecvItem.msg ++ (RecvItem.msg CLOSE :: rest)) =
      communicateLoop t f c (msgs.map RecvItem.msg ++ [RecvItem.msg CLOSE]) ∧
    countClose (communicateLoop t f c
      (msgs.map RecvItem.msg ++ [RecvItem.msg CLOSE])) = 1 :=
  ⟨relay_eof_aux t f c msgs h, relay_clean_rest_aux t f c msgs rest h,
   relay_clean_one_close_aux t f c msgs h⟩

/-- Witness for C7's theorem: after the plain message `5`, an EOF exit
emits no `CLOSE` event while a clean close emits exactly one and ignores a
message queued behind the sentinel. -/
theorem eof_exit_vs_clean_close_exit_witness :
    countClose (communicateLoop "w" 0 openConn
      [RecvItem.msg (PyObj.nat 5), RecvItem.eof]) = 0 ∧
    communicateLoop "w" 0 openConn
        [RecvItem.msg (PyObj.nat 5), RecvItem.msg CLOSE,
         RecvItem.msg (PyObj.nat 6)] =
      communicateLoop "w" 0 openConn
        [RecvItem.msg (PyObj.nat 5), RecvItem.msg CLOSE] ∧
    countClose (communicateLoop "w" 0 openConn
      [RecvItem.msg (PyObj.nat 5), RecvItem.msg CLOSE]) = 1 :=
  eof_exit_vs_clean_close_exit "w" 0 openConn [PyObj.nat 5]
    [RecvItem.msg (PyObj.nat 6)]
    (by intro m hm; simp at hm; subst hm; rfl)

/-- C8: a successful `CommTask` invocation records the fresh, open
worker-side endpoint in `worker_comms` under the returned future; the relay
loop's receive/emit phase never touches that map, so the endpoint stays
referenced and unclosed for the loop's whole lifetime; and on loop exit by
either path the epilogue first closes the scheduler-side comm with
`wait_for_ack=False`, then removes the worker-side endpoint from
`worker_comms` and closes it — leaving both endpoints closed and the map
back to its pre-submission content. -/
theorem workerComm_recorded_and_released (st : CommTaskState) (t : String)
    (f : Nat) (sc : Connection) (stream : List RecvItem)
    (hfresh : lookupComm f st.workerComms = Option.none) :
    CommTask.call st (some f) =
      (some (f, openConn),
       { st with workerComms := st.workerComms ++ [(f, openConn)] }) ∧
    openConn.closed = false ∧
    lookupComm f (st.workerComms ++ [(f, openConn)]) = some openConn ∧
    (∀ s, communicateRun
        { st with workerComms := st.workerComms ++ [(f, openConn)] } t f sc s =
      ({ st with workerComms := st.workerComms ++ [(f, openConn)] },
       communicateLoop t f sc s)) ∧
    CommTask.communicate
        { st with workerComms := st.workerComms ++ [(f, openConn)] }
        t f sc stream =
      (communicateLoop t f sc stream,
       { workerComms := st.workerComms,
         trace := st.trace ++
           [CTAction.schedCommClosed false, CTAction.workerCommRemoved f,
            CTAction.workerCommClosed f] },
       Comm.close sc false, some (Comm.close openConn false)) ∧
    (Comm.close sc false).closed = true ∧
    (Comm.close openConn false).closed = true := by
  have hl : lookupComm f (st.workerComms ++ [(f, openConn)]) = some openConn :=
    lookupComm_append_self f openConn st.workerComms hfresh
  refine ⟨rfl, rfl, hl, fun s => communicateRun_eq _ t f sc s, ?_,
    close_sets_closed sc false, close_sets_closed openConn false⟩
  simp only [CommTask.communicate, communicateRun_eq, communicateEpilogue, hl,
    removeComm_append_self f openConn st.workerComms hfresh]

/-- Witness for C8's theorem: a single-entry `worker_comms` map, an EOF
exit of the relay, and the resulting teardown trace. -/
theorem workerComm_recorded_and_released_witness :
    CommTask.communicate { workerComms := [(0, openConn)], trace := [] }
        "w" 0 openConn [RecvItem.eof] =
      ([], { workerComms := [],
             trace := [CTAction.schedCommClosed false,
                       CTAction.workerCommRemoved 0,
                       CTAction.workerCommClosed 0] },
       Comm.close openConn false, some (Comm.close openConn false)) :=
  (workerComm_recorded_and_released ⟨[], []⟩ "w" 0 openConn [RecvItem.eof]
    rfl).2.2.2.2.1

end Byop
